import Mathlib

/-!
Verification of the football-etl repository's data-normalization, processing,
joining, caching and statistics code against its natural-language specification.

The Python sources are shallowly embedded as Lean definitions:
pandas DataFrames become lists of records, pandas merges become explicit
list-level left merges with pandas row-multiplication semantics, and the
dynamically-typed call surface is modelled with `Option`/`Except`.
Python strings compare by code point, which is modelled by an explicit
lexicographic comparison on character lists.
-/

namespace FootballEtl

/-! ## String primitives shared by the embedded functions -/

/-- Lexicographic code-point comparison of character lists, the semantics of
Python's `<` on `str` values (and of pandas object-column comparisons). -/
def charListLt : List Char → List Char → Bool
  | [], [] => false
  | [], _ :: _ => true
  | _ :: _, [] => false
  | c :: cs, d :: ds =>
    if c.toNat < d.toNat then true
    else if d.toNat < c.toNat then false
    else charListLt cs ds

/-- Python `a < b` on strings. -/
def strLt (a b : String) : Bool := charListLt a.data b.data

/-- Python `a <= b` on strings (total order, so `a <= b` iff `not (b < a)`). -/
def strLe (a b : String) : Bool := !(strLt b a)

/-- Python `str.strip()`: drop leading and trailing whitespace. -/
def pyStrip (s : String) : String :=
  String.mk (((s.data.dropWhile Char.isWhitespace).reverse.dropWhile Char.isWhitespace).reverse)

/-- Effect of `re.sub(r'\s+FC$|\s+CF$|\s+AFC$', '', s)` (src/utils/data_utils.py:27):
remove a trailing " FC"/" CF"/" AFC" token together with the whitespace run
preceding it.  Implemented on the reversed character list; the three regex
alternatives are mutually exclusive, so match order does not matter. -/
def stripTeamSuffix (s : String) : String :=
  let r := s.data.reverse
  let r2 :=
    match r with
    | 'C' :: 'F' :: 'A' :: c :: rest =>
      if c.isWhitespace then (c :: rest).dropWhile Char.isWhitespace else r
    | 'C' :: 'F' :: c :: rest =>
      if c.isWhitespace then (c :: rest).dropWhile Char.isWhitespace else r
    | 'F' :: 'C' :: c :: rest =>
      if c.isWhitespace then (c :: rest).dropWhile Char.isWhitespace else r
    | _ => r
  String.mk r2.reverse

/-! ## Configuration (src/config.py) -/

/-- Team-name alias table `TEAM_NAME_MAPPING` (src/config.py:40-76),
in source order; Python dict lookup is modelled by `List.lookup`
(keys are pairwise distinct in the source). -/
def TEAM_NAME_MAPPING : List (String × String) :=
  [("Manchester United", "Man United"),
   ("Manchester City", "Man City"),
   ("Tottenham", "Tottenham Hotspur"),
   ("Tottenham Hotspur", "Tottenham"),
   ("Newcastle", "Newcastle United"),
   ("Newcastle United", "Newcastle"),
   ("Wolverhampton Wanderers", "Wolves"),
   ("Wolves", "Wolverhampton Wanderers"),
   ("Atletico Madrid", "Atlético Madrid"),
   ("Atlético Madrid", "Atletico Madrid"),
   ("Atletico", "Atlético Madrid"),
   ("Real Betis", "Betis"),
   ("Betis", "Real Betis"),
   ("Bayern Munich", "Bayern München"),
   ("Bayern München", "Bayern Munich"),
   ("RB Leipzig", "Leipzig"),
   ("Leipzig", "RB Leipzig"),
   ("Bayer Leverkusen", "Leverkusen"),
   ("Leverkusen", "Bayer Leverkusen"),
   ("Inter", "Inter Milan"),
   ("Inter Milan", "Inter"),
   ("AC Milan", "Milan"),
   ("Milan", "AC Milan"),
   ("Paris Saint Germain", "PSG"),
   ("Paris Saint-Germain", "PSG"),
   ("PSG", "Paris Saint-Germain")]

/-! ## normalize_team_name (src/utils/data_utils.py:14-33) -/

/-- Embedding of `normalize_team_name`.  The argument is `Option String` to
model the dynamically-typed surface: `None`/missing input (and any non-string,
which the source treats the same way) and the empty string return `""`.
Otherwise the name is stripped, the trailing " FC"/" CF"/" AFC" token removed,
and the alias table consulted for an exact match. -/
def normalize_team_name (name : Option String) : String :=
  match name with
  | none => ""
  | some s =>
    if s = "" then ""
    else
      let t := stripTeamSuffix (pyStrip s)
      match TEAM_NAME_MAPPING.lookup t with
      | some mapped => mapped
      | none => t

/-! ## generate_match_id (src/utils/data_utils.py:101-119) -/

/-- Lower-case and remove every character outside `[a-zA-Z0-9]`
(`re.sub(r'[^a-zA-Z0-9]', '', team.lower())`). -/
def slugify (s : String) : String :=
  String.mk ((s.data.map Char.toLower).filter Char.isAlphanum)

/-- Embedding of `generate_match_id`: `"<date with dashes removed>_<home slug>_<away slug>"`. -/
def generate_match_id (date home_team away_team : String) : String :=
  let home := slugify home_team
  let away := slugify away_team
  let datePart := String.mk (date.data.filter (fun c => c != '-'))
  datePart ++ "_" ++ home ++ "_" ++ away

/-- Dynamically-typed call surface of `generate_match_id`: the source applies
`home_team.lower()` (line 113), then `away_team.lower()` (line 114), then
`date.replace('-','')` (line 117) with no guard, so a missing (`None`)
argument raises an `AttributeError` at the corresponding step, modelled as
`Except.error`. -/
def generate_match_id_dyn (date home_team away_team : Option String) :
    Except String String :=
  match home_team with
  | none => Except.error "AttributeError: NoneType has no attribute lower"
  | some h =>
    match away_team with
    | none => Except.error "AttributeError: NoneType has no attribute lower"
    | some a =>
      match date with
      | none => Except.error "AttributeError: NoneType has no attribute replace"
      | some d => Except.ok (generate_match_id d h a)

/-! ## Generic list-level pandas primitives -/

/-- Pandas `left.merge(right, how='left')` at list level: each left row is
paired with every matching right row (row multiplication), and a left row with
no match is kept once with an absent right side. -/
def leftMerge {α β γ : Type} (as : List α) (bs : List β) (p : α → β → Bool)
    (mk : α → Option β → γ) : List γ :=
  as.flatMap (fun a =>
    match bs.filter (p a) with
    | [] => [mk a none]
    | b :: bs2 => (b :: bs2).map (fun m => mk a (some m)))

/-- Helper of `drop_duplicates`: keep the first row for each key, tracking the
set of keys already seen. -/
def dropDupAux {α : Type} (key : α → String) : List α → List String → List α
  | [], _ => []
  | x :: xs, seen =>
    if key x ∈ seen then dropDupAux key xs seen
    else x :: dropDupAux key xs (key x :: seen)

/-- Pandas `DataFrame.drop_duplicates(subset=[key], keep='first')`. -/
def drop_duplicates {α : Type} (key : α → String) (l : List α) : List α :=
  dropDupAux key l []

/-- Pandas `Series.nunique()`: number of distinct values. -/
def nunique (l : List String) : Nat := (drop_duplicates id l).length

/-! ## join_fixtures_with_team_history (src/utils/data_utils.py:122-191)

DataFrames are lists of records.  The metrics table produced by
`aggregate_team_stats` carries one representative numeric metric column,
`total_goals_for`; the source prefixes every such metric column with
`home_`/`away_` uniformly, so one column exhibits the join's row semantics. -/

/-- One processed fixture row, as consumed by the join. -/
structure FixtureRow where
  match_id : String
  date : String
  home_team : String
  away_team : String
deriving DecidableEq

/-- One team-metrics row (`team`, `date`, metric columns). -/
structure MetricsRow where
  team : String
  date : String
  total_goals_for : Int
deriving DecidableEq

/-- Row of `home_df` (line 176): `match_id`, `date` and the `home_`-prefixed metrics. -/
structure HomeStatsRow where
  match_id : String
  date : String
  home_total_goals_for : Option Int
deriving DecidableEq

/-- Row of `away_df` (line 180): `match_id` and the `away_`-prefixed metrics. -/
structure AwayStatsRow where
  match_id : String
  away_total_goals_for : Option Int
deriving DecidableEq

/-- Row of `joined` (line 183). -/
structure HomeAwayRow where
  match_id : String
  date : String
  home_total_goals_for : Option Int
  away_total_goals_for : Option Int
deriving DecidableEq

/-- Final output row of the join: the fixture columns plus both metric sides. -/
structure CombinedRow where
  match_id : String
  date : String
  home_team : String
  away_team : String
  home_total_goals_for : Option Int
  away_total_goals_for : Option Int
deriving DecidableEq

/-- Merge predicate of the home-side merge (lines 145-151): normalized home
team name equals normalized metrics team name. -/
def homeMatch (f : FixtureRow) (m : MetricsRow) : Bool :=
  normalize_team_name (some f.home_team) == normalize_team_name (some m.team)

/-- Merge predicate of the away-side merge (lines 160-166). -/
def awayMatch (f : FixtureRow) (m : MetricsRow) : Bool :=
  normalize_team_name (some f.away_team) == normalize_team_name (some m.team)

/-- Row builder of the home-side merge and the `home_`-column selection
(lines 145-157, 175-176). -/
def mkHomeStats (f : FixtureRow) (m : Option MetricsRow) : HomeStatsRow :=
  ⟨f.match_id, f.date, m.map MetricsRow.total_goals_for⟩

/-- Row builder of the away-side merge and the `away_`-column selection
(lines 160-172, 179-180). -/
def mkAwayStats (f : FixtureRow) (m : Option MetricsRow) : AwayStatsRow :=
  ⟨f.match_id, m.map MetricsRow.total_goals_for⟩

/-- Row builder of `home_df.merge(away_df, on='match_id', how='left')` (line 183). -/
def mkHomeAway (h : HomeStatsRow) (a : Option AwayStatsRow) : HomeAwayRow :=
  ⟨h.match_id, h.date, h.home_total_goals_for, a.bind AwayStatsRow.away_total_goals_for⟩

/-- Row builder of the final `fixtures.merge(joined, on=['match_id','date'],
how='left')` (line 186), with the temporary norm columns dropped (line 189). -/
def mkCombined (f : FixtureRow) (j : Option HomeAwayRow) : CombinedRow :=
  ⟨f.match_id, f.date, f.home_team, f.away_team,
   j.bind HomeAwayRow.home_total_goals_for, j.bind HomeAwayRow.away_total_goals_for⟩

/-- Merge key of line 183: equal `match_id`. -/
def joinOnMatchId (h : HomeStatsRow) (a : AwayStatsRow) : Bool :=
  h.match_id == a.match_id

/-- Merge key of line 186: equal `match_id` and `date`. -/
def joinOnMatchIdDate (f : FixtureRow) (j : HomeAwayRow) : Bool :=
  f.match_id == j.match_id && f.date == j.date

/-- Embedding of `join_fixtures_with_team_history`: left-merge fixtures with
the metrics on the home side, then on the away side, merge the two stat frames
on `match_id`, and finally left-merge the fixtures with that on
`match_id`/`date`.  Note the merges run against ALL metrics rows of a team,
not just its latest row. -/
def join_fixtures_with_team_history (fixtures_df : List FixtureRow)
    (team_history_df : List MetricsRow) : List CombinedRow :=
  if fixtures_df.isEmpty || team_history_df.isEmpty then []
  else
    leftMerge fixtures_df
      (leftMerge
        (leftMerge fixtures_df team_history_df homeMatch mkHomeStats)
        (leftMerge fixtures_df team_history_df awayMatch mkAwayStats)
        joinOnMatchId mkHomeAway)
      joinOnMatchIdDate mkCombined

/-! ## Mutation of the join's arguments (src/utils/data_utils.py:136-142), claim C5 -/

/-- Column assignment `df[c] = ...`: appends the column when absent. -/
def addColumn (cols : List String) (c : String) : List String :=
  if c ∈ cols then cols else cols ++ [c]

/-- Schema effect of `join_fixtures_with_team_history` on the CALLER's two
DataFrame arguments: lines 136-138 assign `home_team_norm`/`away_team_norm`
on `fixtures_df` and `team_norm` on `team_history_df` BEFORE the copies are
taken at lines 141-142, so both argument schemas gain columns. -/
def join_argument_columns (fixtures_cols history_cols : List String) :
    List String × List String :=
  (addColumn (addColumn fixtures_cols "home_team_norm") "away_team_norm",
   addColumn history_cols "team_norm")

/-! ## Pipeline success-rate statistic (src/pipeline.py:103-118), claim C3 -/

/-- One raw scraped team-history row; only the `team` column participates in
the pipeline statistics. -/
structure ScrapedMatchRow where
  team : String
deriving DecidableEq

/-- Embedding of the `success_rate` entry of `pipeline_stats` (pipeline.py:114):
`len(team_history_df) / (home nunique + away nunique) * 100`, and `0` when the
scraped history is empty (the source renders the string "0%").  The numerator
is the number of scraped history ROWS, not the number of scraped teams. -/
def pipeline_success_rate (team_history : List ScrapedMatchRow)
    (fixtures : List FixtureRow) : ℚ :=
  if team_history.isEmpty then 0
  else
    (team_history.length : ℚ) /
      ((nunique (fixtures.map FixtureRow.home_team) +
        nunique (fixtures.map FixtureRow.away_team) : ℕ) : ℚ) * 100

/-- Success rate as the spec and claim state it (and as the scraper itself
computes at team_scraper.py:1046): the number of distinct teams successfully
scraped over the distinct home-team plus distinct away-team counts. -/
def claimed_success_rate (team_history : List ScrapedMatchRow)
    (fixtures : List FixtureRow) : ℚ :=
  if team_history.isEmpty then 0
  else
    ((nunique (team_history.map ScrapedMatchRow.team) : ℕ) : ℚ) /
      ((nunique (fixtures.map FixtureRow.home_team) +
        nunique (fixtures.map FixtureRow.away_team) : ℕ) : ℚ) * 100

/-! ## Team-history cache (src/scrapers/team_scraper.py:89-126, 829-839), claim C7 -/

/-- Embedding of `TeamHistoryScraper._load_from_cache`: a present cache file
whose JSON decodes to a non-empty list is returned iff its age
`now - cache_time` is under `7 * 24 * 3600` seconds; an unreadable or invalid
payload is `none`. -/
def load_from_cache (cache_file_present : Bool)
    (cached_data : Option (List ScrapedMatchRow)) (cache_time now : Int) :
    Option (List ScrapedMatchRow) :=
  if cache_file_present then
    match cached_data with
    | some records =>
      if 0 < records.length then
        if now - cache_time < 7 * 24 * 3600 then some records else none
      else none
    | none => none
  else none

/-- Decision taken by `scrape_team_history` (team_scraper.py:835-839): the
cached result is used (no re-scrape) iff the cache load produced a non-empty
table; otherwise the team is scraped. -/
def cache_hit (cache_file_present : Bool)
    (cached_data : Option (List ScrapedMatchRow)) (cache_time now : Int) : Bool :=
  match load_from_cache cache_file_present cached_data cache_time now with
  | some records => !records.isEmpty
  | none => false

/-! ## Stable sort, modelling pandas sort_values

The claims only depend on the sorted output up to order of equal keys, and on
membership/permutation; insertion sort is used as the list-level model. -/

/-- Insert `x` before the first element `y` with `le x y`. -/
def insertBy {α : Type} (le : α → α → Bool) (x : α) : List α → List α
  | [] => [x]
  | y :: ys => if le x y then x :: y :: ys else y :: insertBy le x ys

/-- Insertion sort by a boolean comparison, the model of `sort_values`. -/
def sortBy {α : Type} (le : α → α → Bool) : List α → List α
  | [] => []
  | x :: xs => insertBy le x (sortBy le xs)

/-! ## aggregate_team_stats (src/utils/data_utils.py:238-302), claim C2

Dates are modelled as day ordinals (the source converts date strings with
`pd.to_datetime`; only day arithmetic matters for the rolling window).  The
claims concern the rolling SUM `total_goals_for` (line 274); the rolling means
of the other numeric columns and `win_ratio` are built the same way and are
not needed by any claim.  A pandas offset window `'<w>D'` is right-closed and
left-open: row `s` is inside the window ending at date `d` iff
`d - s.date < w`, i.e. `d < s.date + w`. -/

/-- One historical match record entering the rolling aggregation. -/
structure MatchStatRow where
  team : String
  date : Nat
  goals_for : Int
deriving DecidableEq

/-- One output row of the rolling aggregation (one per team and match date). -/
structure RollingStatRow where
  team : String
  date : Nat
  total_goals_for : Int
deriving DecidableEq

/-- Group keys of `df.groupby('team')`: distinct teams in ascending order. -/
def sorted_unique_teams (rows : List MatchStatRow) : List String :=
  drop_duplicates id (sortBy strLe (rows.map MatchStatRow.team))

/-- Rolling `'<w>D'` sum of `goals_for` at position `i` (date `d`) of a
date-sorted group: sum over the rows up to `i` whose date lies in the
right-closed window `(d - w, d]`. -/
def trailing_goals_sum (group : List MatchStatRow) (i : Nat) (d : Nat) (w : Nat) : Int :=
  (((group.take (i + 1)).filter (fun s => d < s.date + w)).map MatchStatRow.goals_for).sum

/-- Embedding of `aggregate_team_stats`: group records by team, sort each
group by date, and produce one row per record carrying the trailing-window
rolling sum of `goals_for` (`min_periods=1`, so every row produces a value). -/
def aggregate_team_stats (team_history_df : List MatchStatRow) (window_days : Nat) :
    List RollingStatRow :=
  if team_history_df.isEmpty then []
  else
    (sorted_unique_teams team_history_df).flatMap (fun t =>
      let group := sortBy (fun a b => decide (a.date ≤ b.date))
        (team_history_df.filter (fun r => r.team == t))
      group.enum.map (fun p =>
        { team := t, date := p.2.date,
          total_goals_for := trailing_goals_sum group p.1 p.2.date window_days }))

/-! ## normalize_date (src/utils/data_utils.py:36-71)

The source re-renders a date given in any of twelve formats (then a general
parser fallback) as `"%Y-%m-%d"`, returning `None` when nothing parses.  The
embedding covers the first format, canonical `YYYY-MM-DD` — on which the
source is the identity (`strptime` then `strftime` with the same format) —
and treats every other input as unparseable.  No claim exercises the other
formats; what the claims use is that a parsed date is returned in ISO form
and that failures yield no value. -/

/-- Gregorian leap-year rule used by `datetime`. -/
def isLeapYear (y : Nat) : Bool :=
  (y % 4 == 0 && y % 100 != 0) || y % 400 == 0

/-- Number of days of month `m` in year `y`. -/
def daysInMonth (y m : Nat) : Nat :=
  if m == 2 then (if isLeapYear y then 29 else 28)
  else if m == 4 || m == 6 || m == 9 || m == 11 then 30
  else 31

/-- Decimal value of a digit string. -/
def natOfDigits (l : List Char) : Nat :=
  l.foldl (fun acc c => acc * 10 + (c.toNat - 48)) 0

/-- Embedding of `normalize_date`, restricted to the canonical-ISO branch
(see the section comment): a valid `YYYY-MM-DD` string is returned unchanged,
anything else yields `none`. -/
def normalize_date (s : String) : Option String :=
  match s.data with
  | [y1, y2, y3, y4, '-', m1, m2, '-', d1, d2] =>
    if ([y1, y2, y3, y4, m1, m2, d1, d2].all Char.isDigit) then
      let y := natOfDigits [y1, y2, y3, y4]
      let m := natOfDigits [m1, m2]
      let d := natOfDigits [d1, d2]
      if 1 ≤ m ∧ m ≤ 12 ∧ 1 ≤ d ∧ d ≤ daysInMonth y m then some s else none
    else none
  | _ => none

/-! ## Data processor (src/processors/data_processor.py)

A fixtures DataFrame is a list of rows plus a flag recording whether the
`match_id` column exists (the other four required columns — `date`,
`home_team`, `away_team`, `league` — are structure fields, always present;
the claims only exercise a missing `match_id`).  The optional
`kickoff_time`/`venue` columns and the CSV persistence are not observed by
any claim and are omitted.  Comparing a `None` date against the run date (or
sorting on it) raises a `TypeError` in the source, which the outer handler
turns into an empty, column-less DataFrame; the embedding returns the empty
frame whenever an unparseable date survives to that point. -/

/-- One raw fixture row. -/
structure RawFixtureRow where
  match_id : String
  date : String
  home_team : String
  away_team : String
  league : String
deriving DecidableEq

/-- A fixtures DataFrame: the `match_id`-column-present flag and the rows. -/
structure FixturesFrame where
  has_match_id : Bool
  rows : List RawFixtureRow
deriving DecidableEq

/-- Result record of `validate_data` (src/utils/data_utils.py:194-235).
`missing_values` does not influence `valid` in the source and is omitted. -/
structure ValidationResult where
  valid : Bool
  missing_columns : List String
  record_count : Nat
  duplicate_ids : Nat
deriving DecidableEq

/-- Pandas `Series.duplicated().sum()`: rows equal (by key) to an earlier row. -/
def count_duplicate_ids (ids : List String) : Nat :=
  ids.length - (drop_duplicates id ids).length

/-- Embedding of `validate_data` for the fixtures schema: `valid` is false iff
a required column is missing (here: `match_id`) or a duplicate id exists. -/
def validate_data (df : FixturesFrame) : ValidationResult :=
  if df.has_match_id then
    { valid := count_duplicate_ids (df.rows.map RawFixtureRow.match_id) == 0,
      missing_columns := [],
      record_count := df.rows.length,
      duplicate_ids := count_duplicate_ids (df.rows.map RawFixtureRow.match_id) }
  else
    { valid := false, missing_columns := ["match_id"],
      record_count := df.rows.length, duplicate_ids := 0 }

/-- Recovery step of `process_fixtures` (data_processor.py:69-76): regenerate
`match_id` from the raw date and team names. -/
def regen_match_id (r : RawFixtureRow) : RawFixtureRow :=
  { r with match_id := generate_match_id r.date r.home_team r.away_team }

/-- Team-name normalization step (data_processor.py:79-80). -/
def normalize_fixture_teams (r : RawFixtureRow) : RawFixtureRow :=
  { r with home_team := normalize_team_name (some r.home_team),
           away_team := normalize_team_name (some r.away_team) }

/-- Sort key of `df.sort_values('date')` (data_processor.py:116). -/
def fixtureDateLe (a b : RawFixtureRow) : Bool := strLe a.date b.date

/-- Final stage of `process_fixtures` after dedup: if every surviving date
parsed, materialize the normalized dates, keep rows with `date >= today`
(data_processor.py:109-110) and sort by date; otherwise the `None`-vs-string
comparison raises and the handler returns an empty DataFrame. -/
def pf_finalize (today : String) (deduped : List (RawFixtureRow × Option String)) :
    FixturesFrame :=
  if deduped.all (fun p => p.2.isSome) then
    ⟨true, sortBy fixtureDateLe
      ((deduped.filterMap (fun p => p.2.map (fun d => { p.1 with date := d }))).filter
        (fun r => strLe today r.date))⟩
  else ⟨false, []⟩

/-- Embedding of `FootballDataProcessor.process_fixtures`
(data_processor.py:34-136): on a non-empty frame, regenerate `match_id` when
the column is absent, normalize team names, normalize dates, drop duplicate
`match_id`s keeping the first, then filter to `date >= today` and sort. -/
def process_fixtures (today : String) (df : FixturesFrame) : FixturesFrame :=
  if df.rows.isEmpty then ⟨false, []⟩
  else
    pf_finalize today
      (drop_duplicates (fun p => p.1.match_id)
        (((if df.has_match_id then df.rows else df.rows.map regen_match_id).map
            normalize_fixture_teams).map
          (fun r => (r, normalize_date r.date))))

/-- One raw team-history row; the claims exercise the `team`, `date`,
`opponent` and `result` columns (the numeric-stat columns and `match_id`
regeneration of data_processor.py:196-241 are not observed by any claim). -/
structure TeamHistoryRow where
  team : String
  date : String
  opponent : String
  result : String
deriving DecidableEq

/-- Result lookup table of data_processor.py:184-189. -/
def RESULT_MAPPING : List (String × String) :=
  [("W", "W"), ("D", "D"), ("L", "L"),
   ("Win", "W"), ("Draw", "D"), ("Loss", "L"),
   ("win", "W"), ("draw", "D"), ("loss", "L"),
   ("1", "W"), ("0", "L"), ("0.5", "D")]

/-- Canonicalize `result` to W/D/L, `U` for anything unknown
(data_processor.py:191-193). -/
def canonical_result (s : String) : String :=
  (RESULT_MAPPING.lookup (pyStrip s)).getD "U"

/-- Sort key of `df.sort_values(['team','date'], ascending=[True, False])`
(data_processor.py:244). -/
def teamDateSortLe (a b : TeamHistoryRow) : Bool :=
  strLt a.team b.team || (a.team == b.team && strLe b.date a.date)

/-- Final stage of `process_team_history`: if all dates parsed, materialize
them, canonicalize `result`, sort by team ascending then date descending, and
keep rows with `date <= today` (data_processor.py:247-248); a `None` date
raises during sorting and the handler returns an empty DataFrame. -/
def pth_finalize (today : String) (dated : List (TeamHistoryRow × Option String)) :
    List TeamHistoryRow :=
  if dated.all (fun p => p.2.isSome) then
    (sortBy teamDateSortLe
      ((dated.filterMap (fun p => p.2.map (fun d => { p.1 with date := d }))).map
        (fun r => { r with result := canonical_result r.result }))).filter
      (fun r => strLe r.date today)
  else []

/-- Embedding of `FootballDataProcessor.process_team_history`
(data_processor.py:138-269): normalize team/opponent names and dates,
canonicalize results, sort, and drop rows dated after the run date. -/
def process_team_history (today : String) (rows : List TeamHistoryRow) :
    List TeamHistoryRow :=
  if rows.isEmpty then []
  else
    pth_finalize today
      ((rows.map (fun r =>
        { r with team := normalize_team_name (some r.team),
                 opponent := normalize_team_name (some r.opponent) })).map
        (fun r => (r, normalize_date r.date)))

/-! ## Helper lemmas: sorting is a permutation -/

/-- Insertion keeps exactly the original rows. -/
theorem insertBy_perm {α : Type} (le : α → α → Bool) (x : α) (l : List α) :
    (insertBy le x l).Perm (x :: l) := by
  induction l with
  | nil => exact List.Perm.refl _
  | cons y ys ih =>
    simp only [insertBy]
    split
    · exact List.Perm.refl _
    · exact (List.Perm.cons y ih).trans (List.Perm.swap x y ys)

/-- Sorting keeps exactly the original rows. -/
theorem sortBy_perm {α : Type} (le : α → α → Bool) (l : List α) :
    (sortBy le l).Perm l := by
  induction l with
  | nil => exact List.Perm.refl _
  | cons x xs ih =>
    exact (insertBy_perm le x (sortBy le xs)).trans (List.Perm.cons x ih)

/-- Membership is invariant under sorting. -/
theorem mem_sortBy {α : Type} {a : α} (le : α → α → Bool) (l : List α) :
    a ∈ sortBy le l ↔ a ∈ l :=
  (sortBy_perm le l).mem_iff

/-! ## Helper lemmas: structure of leftMerge -/

/-- Unfolding lemma: a left merge processes its left rows one at a time. -/
theorem leftMerge_cons {α β γ : Type} (a : α) (as : List α) (bs : List β)
    (p : α → β → Bool) (mk : α → Option β → γ) :
    leftMerge (a :: as) bs p mk =
      (match bs.filter (p a) with
        | [] => [mk a none]
        | b :: bs2 => (b :: bs2).map (fun m => mk a (some m))) ++
      leftMerge as bs p mk := by
  unfold leftMerge
  rw [List.flatMap_cons]

/-- When every left row has at most one match on the right, a left merge is a
plain map: each left row pairs with the head of its (empty or singleton)
match list. -/
theorem leftMerge_eq_map {α β γ : Type} (as : List α) (bs : List β)
    (p : α → β → Bool) (mk : α → Option β → γ)
    (h : ∀ a ∈ as, (bs.filter (p a)).length ≤ 1) :
    leftMerge as bs p mk = as.map (fun a => mk a (bs.filter (p a)).head?) := by
  induction as with
  | nil => rfl
  | cons a as ih =>
    have htail : ∀ x ∈ as, (bs.filter (p x)).length ≤ 1 :=
      fun x hx => h x (List.mem_cons_of_mem a hx)
    rw [leftMerge_cons, ih htail, List.map_cons]
    cases hfa : bs.filter (p a) with
    | nil => simp [hfa]
    | cons b bs2 =>
      have hlen := h a (List.mem_cons_self a as)
      rw [hfa] at hlen
      have hbs2 : bs2 = [] := by
        have : bs2.length = 0 := by simpa using hlen
        exact List.eq_nil_of_length_eq_zero this
      subst hbs2
      simp [hfa]

/-- If `x` is the unique element of `l` (by key `k`) whose image satisfies `q`,
filtering the image of `l` returns exactly that image element. -/
theorem filter_map_eq_single {α β : Type} (l : List α) (x : α) (g : α → β)
    (q : β → Bool) (k : α → String)
    (hnd : (l.map k).Nodup) (hx : x ∈ l) (hpos : q (g x) = true)
    (hkey : ∀ y ∈ l, q (g y) = true → k y = k x) :
    (l.map g).filter q = [g x] := by
  induction l with
  | nil => cases hx
  | cons a l ih =>
    rw [List.map_cons, List.nodup_cons] at hnd
    obtain ⟨hka, hndl⟩ := hnd
    rw [List.map_cons, List.filter_cons]
    rcases List.mem_cons.mp hx with rfl | hxl
    · rw [if_pos hpos]
      have hnil : (l.map g).filter q = [] := by
        rw [List.filter_eq_nil_iff]
        intro b hb hq
        obtain ⟨y, hy, rfl⟩ := List.mem_map.mp hb
        have hk := hkey y (List.mem_cons_of_mem _ hy) hq
        exact hka (hk ▸ List.mem_map_of_mem k hy)
      rw [hnil]
    · have hqa : q (g a) = false := by
        cases hq : q (g a) with
        | false => rfl
        | true =>
          have hk := hkey a (List.mem_cons_self a l) hq
          exact absurd (hk ▸ List.mem_map_of_mem k hxl) hka
      rw [if_neg (by simp [hqa])]
      exact ih hndl hxl (fun y hy hq => hkey y (List.mem_cons_of_mem a hy) hq)

/-! ## Helper lemmas: deduplication -/

/-- A deduplicated list only contains original rows. -/
theorem dropDupAux_sub {α : Type} (key : α → String) :
    ∀ (l : List α) (seen : List String) (a : α),
    a ∈ dropDupAux key l seen → a ∈ l := by
  intro l
  induction l with
  | nil => intro seen a h; cases h
  | cons x xs ih =>
    intro seen a h
    rw [dropDupAux] at h
    split at h
    · exact List.mem_cons_of_mem x (ih seen a h)
    · rcases List.mem_cons.mp h with rfl | h2
      · exact List.mem_cons_self a xs
      · exact List.mem_cons_of_mem x (ih (key x :: seen) a h2)

/-- The keys of a deduplicated list are pairwise distinct and avoid `seen`. -/
theorem dropDupAux_key_nodup {α : Type} (key : α → String) :
    ∀ (l : List α) (seen : List String),
    ((dropDupAux key l seen).map key).Nodup ∧
    ∀ k ∈ (dropDupAux key l seen).map key, k ∉ seen := by
  intro l
  induction l with
  | nil =>
    intro seen
    constructor
    · simp [dropDupAux]
    · simp [dropDupAux]
  | cons x xs ih =>
    intro seen
    rw [dropDupAux]
    split
    · exact ih seen
    · rename_i hx
      obtain ⟨ihnd, ihseen⟩ := ih (key x :: seen)
      constructor
      · rw [List.map_cons, List.nodup_cons]
        exact ⟨fun hmem => (ihseen _ hmem) (List.mem_cons_self _ _), ihnd⟩
      · intro k hk
        rcases List.mem_cons.mp hk with rfl | hk2
        · exact hx
        · exact fun hkseen => (ihseen k hk2) (List.mem_cons_of_mem _ hkseen)

/-- Deduplicating an already-duplicate-free string list is the identity. -/
theorem dropDupAux_id_eq_self :
    ∀ (l : List String) (seen : List String), l.Nodup →
    (∀ a ∈ l, a ∉ seen) → dropDupAux id l seen = l := by
  intro l
  induction l with
  | nil => intro seen _ _; rfl
  | cons x xs ih =>
    intro seen hnd hseen
    rw [List.nodup_cons] at hnd
    rw [dropDupAux, if_neg (by exact hseen x (List.mem_cons_self x xs))]
    congr 1
    apply ih _ hnd.2
    intro a ha
    intro hmem
    rcases List.mem_cons.mp hmem with rfl | h2
    · exact hnd.1 ha
    · exact hseen a (List.mem_cons_of_mem x ha) h2

/-- A duplicate-free id list has a zero pandas duplicate count. -/
theorem count_duplicate_ids_eq_zero {ids : List String} (h : ids.Nodup) :
    count_duplicate_ids ids = 0 := by
  unfold count_duplicate_ids drop_duplicates
  rw [dropDupAux_id_eq_self ids [] h (by simp)]
  omega

/-- Keys through a key-preserving `filterMap` form a sublist of the original
keys. -/
theorem filterMap_key_sublist {α β : Type} (l : List α) (f : α → Option β)
    (k1 : α → String) (k2 : β → String)
    (h : ∀ a b, f a = some b → k2 b = k1 a) :
    ((l.filterMap f).map k2).Sublist (l.map k1) := by
  induction l with
  | nil => simp
  | cons a l ih =>
    rw [List.filterMap_cons, List.map_cons]
    cases hfa : f a with
    | none => exact ih.cons (k1 a)
    | some b =>
      rw [List.map_cons, h a b hfa]
      exact ih.cons₂ (k1 a)

/-! ## Claim C1 -/

/-- C1 counterexample: one fixture joined against a metrics table holding two
rows for the fixture's home team yields 2 output rows, not 1; the merge is
against all of a team's metrics rows, not its latest one, so the N-row
guarantee fails. -/
theorem join_rowcount_counterexample :
    (join_fixtures_with_team_history
        [⟨"20250110_arsenal_chelsea", "2025-01-10", "Arsenal", "Chelsea"⟩]
        [⟨"Arsenal", "2025-01-01", 1⟩, ⟨"Arsenal", "2025-01-05", 2⟩]).length = 2 ∧
    ([(⟨"20250110_arsenal_chelsea", "2025-01-10", "Arsenal", "Chelsea"⟩ : FixtureRow)]).length = 1 ∧
    (2 : Nat) ≠ 1 := by
  decide

/-- C1 amended: when the fixtures have pairwise-distinct `match_id`s and each
fixture has at most one home-side and at most one away-side metrics row, the
join returns exactly one output row per input fixture, in input order — left
join semantics: a side with no metrics row gets an absent metric value instead
of the fixture row being dropped.  (Without the at-most-one hypothesis the
join multiplies rows, see the counterexample.) -/
theorem join_left_semantics_amended
    (fixtures : List FixtureRow) (metrics : List MetricsRow)
    (hne : metrics ≠ [])
    (hnd : (fixtures.map FixtureRow.match_id).Nodup)
    (hhome : ∀ f ∈ fixtures, (metrics.filter (homeMatch f)).length ≤ 1)
    (haway : ∀ f ∈ fixtures, (metrics.filter (awayMatch f)).length ≤ 1) :
    join_fixtures_with_team_history fixtures metrics =
      fixtures.map (fun f =>
        { match_id := f.match_id, date := f.date, home_team := f.home_team,
          away_team := f.away_team,
          home_total_goals_for :=
            ((metrics.filter (homeMatch f)).head?).map MetricsRow.total_goals_for,
          away_total_goals_for :=
            ((metrics.filter (awayMatch f)).head?).map MetricsRow.total_goals_for }) := by
  by_cases hfe : fixtures = []
  · subst hfe
    simp [join_fixtures_with_team_history]
  · have h1 : fixtures.isEmpty = false := by
      simp [List.isEmpty_iff, hfe]
    have h2 : metrics.isEmpty = false := by
      simp [List.isEmpty_iff, hne]
    have e1 : leftMerge fixtures metrics homeMatch mkHomeStats =
        fixtures.map (fun f => mkHomeStats f (metrics.filter (homeMatch f)).head?) :=
      leftMerge_eq_map _ _ _ _ hhome
    have e2 : leftMerge fixtures metrics awayMatch mkAwayStats =
        fixtures.map (fun f => mkAwayStats f (metrics.filter (awayMatch f)).head?) :=
      leftMerge_eq_map _ _ _ _ haway
    have hfilterA : ∀ f ∈ fixtures,
        ((fixtures.map (fun f2 => mkAwayStats f2 (metrics.filter (awayMatch f2)).head?)).filter
          (joinOnMatchId (mkHomeStats f (metrics.filter (homeMatch f)).head?))) =
        [mkAwayStats f (metrics.filter (awayMatch f)).head?] := by
      intro f hf
      apply filter_map_eq_single fixtures f
        (fun f2 => mkAwayStats f2 (metrics.filter (awayMatch f2)).head?)
        (joinOnMatchId (mkHomeStats f (metrics.filter (homeMatch f)).head?))
        FixtureRow.match_id hnd hf
      · simp [joinOnMatchId, mkHomeStats, mkAwayStats]
      · intro y hy hq
        have hq2 : f.match_id = y.match_id := by
          simpa [joinOnMatchId, mkHomeStats, mkAwayStats] using hq
        exact hq2.symm
    have hle : ∀ h ∈ fixtures.map (fun f => mkHomeStats f (metrics.filter (homeMatch f)).head?),
        ((fixtures.map (fun f2 => mkAwayStats f2 (metrics.filter (awayMatch f2)).head?)).filter
          (joinOnMatchId h)).length ≤ 1 := by
      intro h hh
      obtain ⟨f, hf, rfl⟩ := List.mem_map.mp hh
      rw [hfilterA f hf]
      simp
    have e3 : leftMerge
        (fixtures.map (fun f => mkHomeStats f (metrics.filter (homeMatch f)).head?))
        (fixtures.map (fun f2 => mkAwayStats f2 (metrics.filter (awayMatch f2)).head?))
        joinOnMatchId mkHomeAway =
        fixtures.map (fun f => (⟨f.match_id, f.date,
          ((metrics.filter (homeMatch f)).head?).map MetricsRow.total_goals_for,
          ((metrics.filter (awayMatch f)).head?).map MetricsRow.total_goals_for⟩ : HomeAwayRow)) := by
      rw [leftMerge_eq_map _ _ _ _ hle, List.map_map]
      apply List.map_congr_left
      intro f hf
      simp only [Function.comp_apply]
      rw [hfilterA f hf]
      simp [mkHomeAway, mkHomeStats, mkAwayStats]
    have hfilterJ : ∀ f ∈ fixtures,
        ((fixtures.map (fun f3 => (⟨f3.match_id, f3.date,
          ((metrics.filter (homeMatch f3)).head?).map MetricsRow.total_goals_for,
          ((metrics.filter (awayMatch f3)).head?).map MetricsRow.total_goals_for⟩ : HomeAwayRow))).filter
          (joinOnMatchIdDate f)) =
        [(⟨f.match_id, f.date,
          ((metrics.filter (homeMatch f)).head?).map MetricsRow.total_goals_for,
          ((metrics.filter (awayMatch f)).head?).map MetricsRow.total_goals_for⟩ : HomeAwayRow)] := by
      intro f hf
      apply filter_map_eq_single fixtures f
        (fun f3 => (⟨f3.match_id, f3.date,
          ((metrics.filter (homeMatch f3)).head?).map MetricsRow.total_goals_for,
          ((metrics.filter (awayMatch f3)).head?).map MetricsRow.total_goals_for⟩ : HomeAwayRow))
        (joinOnMatchIdDate f) FixtureRow.match_id hnd hf
      · simp [joinOnMatchIdDate]
      · intro y hy hq
        have hq2 : f.match_id = y.match_id ∧ f.date = y.date := by
          simpa [joinOnMatchIdDate] using hq
        exact hq2.1.symm
    have hleF : ∀ f ∈ fixtures,
        ((fixtures.map (fun f3 => (⟨f3.match_id, f3.date,
          ((metrics.filter (homeMatch f3)).head?).map MetricsRow.total_goals_for,
          ((metrics.filter (awayMatch f3)).head?).map MetricsRow.total_goals_for⟩ : HomeAwayRow))).filter
          (joinOnMatchIdDate f)).length ≤ 1 := by
      intro f hf
      rw [hfilterJ f hf]
      simp
    unfold join_fixtures_with_team_history
    rw [if_neg (by simp [h1, h2])]
    rw [e1, e2, e3]
    rw [leftMerge_eq_map _ _ _ _ hleF]
    apply List.map_congr_left
    intro f hf
    rw [hfilterJ f hf]
    simp [mkCombined]

/-- Witness for C1's amended theorem: one fixture, one home-side metrics row,
no away-side metrics row — one output row with the away metric absent. -/
theorem join_left_semantics_amended_witness :
    join_fixtures_with_team_history
        [⟨"20250110_arsenal_chelsea", "2025-01-10", "Arsenal", "Chelsea"⟩]
        [⟨"Arsenal", "2025-01-05", 2⟩] =
      [⟨"20250110_arsenal_chelsea", "2025-01-10", "Arsenal", "Chelsea", some 2, none⟩] := by
  have h := join_left_semantics_amended
      [⟨"20250110_arsenal_chelsea", "2025-01-10", "Arsenal", "Chelsea"⟩]
      [⟨"Arsenal", "2025-01-05", 2⟩]
      (by decide) (by decide) (by decide) (by decide)
  exact h.trans (by decide)

/-! ## Claim C2 -/

/-- C2: for one team with matches at days 0, 40, 95 carrying goals 1, 2, 3 and
a 90-day window, the metrics row at day 95 sums only the day-40 and day-95
matches (the day-0 match is 95 days back, outside the trailing window), giving
`total_goals_for = 5` — not 6. -/
theorem aggregate_rolling_window_claim :
    aggregate_team_stats
        [⟨"Arsenal", 0, 1⟩, ⟨"Arsenal", 40, 2⟩, ⟨"Arsenal", 95, 3⟩] 90 =
      [⟨"Arsenal", 0, 1⟩, ⟨"Arsenal", 40, 3⟩, ⟨"Arsenal", 95, 5⟩] := by
  decide

/-! ## Claim C3 -/

/-- C3: for one processed fixture (two distinct teams) whose both teams were
scraped with 7 match records each, the persisted `success_rate` evaluates to
700 (percent), while the rate the claim and spec describe — scraped teams over
distinct home+away team names — is 100; the code divides the scraped ROW count,
not the scraped team count. -/
theorem pipeline_success_rate_divergence :
    pipeline_success_rate
        (List.replicate 7 (⟨"Arsenal"⟩ : ScrapedMatchRow) ++
          List.replicate 7 ⟨"Chelsea"⟩)
        [⟨"20250620_arsenal_chelsea", "2025-06-20", "Arsenal", "Chelsea"⟩] = 700 ∧
    claimed_success_rate
        (List.replicate 7 (⟨"Arsenal"⟩ : ScrapedMatchRow) ++
          List.replicate 7 ⟨"Chelsea"⟩)
        [⟨"20250620_arsenal_chelsea", "2025-06-20", "Arsenal", "Chelsea"⟩] = 100 ∧
    (700 : ℚ) ≠ 100 := by
  refine ⟨?_, ?_, by norm_num⟩
  · have hlen : (List.replicate 7 (⟨"Arsenal"⟩ : ScrapedMatchRow) ++
        List.replicate 7 (⟨"Chelsea"⟩ : ScrapedMatchRow)).length = 14 := by decide
    have hemp : (List.replicate 7 (⟨"Arsenal"⟩ : ScrapedMatchRow) ++
        List.replicate 7 (⟨"Chelsea"⟩ : ScrapedMatchRow)).isEmpty = false := by decide
    have hh : nunique (([⟨"20250620_arsenal_chelsea", "2025-06-20", "Arsenal",
        "Chelsea"⟩] : List FixtureRow).map FixtureRow.home_team) = 1 := by decide
    have ha : nunique (([⟨"20250620_arsenal_chelsea", "2025-06-20", "Arsenal",
        "Chelsea"⟩] : List FixtureRow).map FixtureRow.away_team) = 1 := by decide
    rw [pipeline_success_rate, hemp, hlen, hh, ha]
    norm_num
  · have hemp : (List.replicate 7 (⟨"Arsenal"⟩ : ScrapedMatchRow) ++
        List.replicate 7 (⟨"Chelsea"⟩ : ScrapedMatchRow)).isEmpty = false := by decide
    have ht : nunique ((List.replicate 7 (⟨"Arsenal"⟩ : ScrapedMatchRow) ++
        List.replicate 7 (⟨"Chelsea"⟩ : ScrapedMatchRow)).map ScrapedMatchRow.team) = 2 := by decide
    have hh : nunique (([⟨"20250620_arsenal_chelsea", "2025-06-20", "Arsenal",
        "Chelsea"⟩] : List FixtureRow).map FixtureRow.home_team) = 1 := by decide
    have ha : nunique (([⟨"20250620_arsenal_chelsea", "2025-06-20", "Arsenal",
        "Chelsea"⟩] : List FixtureRow).map FixtureRow.away_team) = 1 := by decide
    rw [claimed_success_rate, hemp, ht, hh, ha]
    norm_num

/-! ## Claim C4 -/

/-- C4 counterexample: the claim says `normalize_team_name` fixes every string
on the value side of the alias table, but the table is made of bidirectional
pairs, so the value "Tottenham Hotspur" (value of key "Tottenham") is itself a
key and normalizes to "Tottenham", not to itself.  The claim's second part
also fails on untrimmed input: " Arsenal " is not a key and has no trailing
suffix, yet normalizes to "Arsenal". -/
theorem normalize_value_fixed_point_counterexample :
    ("Tottenham", "Tottenham Hotspur") ∈ TEAM_NAME_MAPPING ∧
    normalize_team_name (some "Tottenham Hotspur") = "Tottenham" ∧
    "Tottenham" ≠ "Tottenham Hotspur" ∧
    normalize_team_name (some " Arsenal ") = "Arsenal" ∧
    "Arsenal" ≠ " Arsenal " := by
  decide

/-- C4 amended: `normalize_team_name` fixes exactly those alias-table values
that are not themselves alias-table keys (e.g. "Man City"), and it fixes every
string that is unchanged by whitespace stripping and by suffix stripping and
is not an alias-table key. -/
theorem normalize_team_name_fixed_points :
    (∀ p ∈ TEAM_NAME_MAPPING, TEAM_NAME_MAPPING.lookup p.2 = none →
      normalize_team_name (some p.2) = p.2) ∧
    (∀ s : String, pyStrip s = s → stripTeamSuffix s = s →
      TEAM_NAME_MAPPING.lookup s = none → normalize_team_name (some s) = s) := by
  constructor
  · decide
  · intro s hstrip hsuffix hlookup
    by_cases hempty : s = ""
    · simp [normalize_team_name, hempty]
    · simp [normalize_team_name, hempty, hstrip, hsuffix, hlookup]

/-- Witness for C4's amended theorem at the concrete inputs "Man City"
(an alias value that is not a key) and "Arsenal" (a plain unmapped name). -/
theorem normalize_team_name_fixed_points_witness :
    normalize_team_name (some "Man City") = "Man City" ∧
    normalize_team_name (some "Arsenal") = "Arsenal" := by
  constructor
  · exact normalize_team_name_fixed_points.1 ("Manchester City", "Man City")
      (by decide) (by decide)
  · exact normalize_team_name_fixed_points.2 "Arsenal" (by decide) (by decide) (by decide)

/-! ## Claim C5 -/

/-- C5: the join adds normalized-name columns to both of the CALLER's argument
DataFrames (before its internal copies are taken), contradicting the
side-effect-free claim; shown on the standard fixture and metrics schemas. -/
theorem join_mutates_caller_arguments :
    join_argument_columns
        ["match_id", "date", "home_team", "away_team", "league"]
        ["team", "date", "total_goals_for"] =
      (["match_id", "date", "home_team", "away_team", "league",
        "home_team_norm", "away_team_norm"],
       ["team", "date", "total_goals_for", "team_norm"]) ∧
    join_argument_columns
        ["match_id", "date", "home_team", "away_team", "league"]
        ["team", "date", "total_goals_for"] ≠
      (["match_id", "date", "home_team", "away_team", "league"],
       ["team", "date", "total_goals_for"]) := by
  decide

/-! ## Claim C6 -/

/-- C6: processed fixtures contain no row dated strictly before the run date,
and processed team history contains no row dated strictly after the run date;
rows dated exactly on the run date pass both date filters, exhibited on
concrete run-date-dated frames. -/
theorem processed_dates_respect_run_date :
    (∀ (today : String) (df : FixturesFrame),
      ∀ r ∈ (process_fixtures today df).rows, strLe today r.date = true) ∧
    (∀ (today : String) (rows : List TeamHistoryRow),
      ∀ r ∈ process_team_history today rows, strLe r.date today = true) ∧
    process_fixtures "2025-06-15"
        ⟨true, [⟨"m1", "2025-06-15", "Arsenal", "Chelsea", "Premier League"⟩]⟩ =
      ⟨true, [⟨"m1", "2025-06-15", "Arsenal", "Chelsea", "Premier League"⟩]⟩ ∧
    process_team_history "2025-06-15" [⟨"Arsenal", "2025-06-15", "Chelsea", "W"⟩] =
      [⟨"Arsenal", "2025-06-15", "Chelsea", "W"⟩] := by
  have hpf : ∀ (today : String) (l : List (RawFixtureRow × Option String)),
      ∀ r ∈ (pf_finalize today l).rows, strLe today r.date = true := by
    intro today l r hr
    unfold pf_finalize at hr
    by_cases hall : l.all (fun p => p.2.isSome) = true
    · rw [if_pos hall] at hr
      have hr2 : r ∈ sortBy fixtureDateLe
          ((l.filterMap (fun p => p.2.map (fun d => { p.1 with date := d }))).filter
            (fun r2 => strLe today r2.date)) := hr
      have hr3 := (mem_sortBy fixtureDateLe _).mp hr2
      simpa using List.of_mem_filter hr3
    · rw [if_neg hall] at hr
      exact absurd hr (List.not_mem_nil r)
  have hpth : ∀ (today : String) (l : List (TeamHistoryRow × Option String)),
      ∀ r ∈ pth_finalize today l, strLe r.date today = true := by
    intro today l r hr
    unfold pth_finalize at hr
    by_cases hall : l.all (fun p => p.2.isSome) = true
    · rw [if_pos hall] at hr
      simpa using List.of_mem_filter hr
    · rw [if_neg hall] at hr
      exact absurd hr (List.not_mem_nil r)
  refine ⟨?_, ?_, by decide, by decide⟩
  · intro today df r hr
    unfold process_fixtures at hr
    by_cases h0 : df.rows.isEmpty = true
    · rw [if_pos h0] at hr
      exact absurd hr (List.not_mem_nil r)
    · rw [if_neg h0] at hr
      exact hpf today _ r hr
  · intro today rows r hr
    unfold process_team_history at hr
    by_cases h0 : rows.isEmpty = true
    · rw [if_pos h0] at hr
      exact absurd hr (List.not_mem_nil r)
    · rw [if_neg h0] at hr
      exact hpth today _ r hr

/-- Witness for C6 at concrete frames: a future fixture survives processing on
2025-06-15 and its date is not before the run date; a past history row
survives and its date is not after the run date. -/
theorem processed_dates_respect_run_date_witness :
    strLe "2025-06-15"
      (⟨"m1", "2025-06-20", "Arsenal", "Chelsea", "Premier League"⟩ : RawFixtureRow).date = true ∧
    strLe (⟨"Arsenal", "2025-06-10", "Chelsea", "W"⟩ : TeamHistoryRow).date "2025-06-15" = true := by
  constructor
  · exact processed_dates_respect_run_date.1 "2025-06-15"
      ⟨true, [⟨"m1", "2025-06-20", "Arsenal", "Chelsea", "Premier League"⟩]⟩
      ⟨"m1", "2025-06-20", "Arsenal", "Chelsea", "Premier League"⟩ (by decide)
  · exact processed_dates_respect_run_date.2.1 "2025-06-15"
      [⟨"Arsenal", "2025-06-10", "Chelsea", "W"⟩]
      ⟨"Arsenal", "2025-06-10", "Chelsea", "W"⟩ (by decide)

/-! ## Claim C7 -/

/-- C7: a present, valid, non-empty cache entry written at time `t` is a hit at
every lookup time with age under 604,800 seconds; in particular it is a hit at
`t + 6` days and a miss (so the team is re-scraped) at `t + 8` days. -/
theorem cache_freshness_window :
    (∀ (records : List ScrapedMatchRow) (t now : Int), records ≠ [] →
      now - t < 604800 →
      load_from_cache true (some records) t now = some records ∧
      cache_hit true (some records) t now = true) ∧
    (∀ (records : List ScrapedMatchRow) (t : Int), records ≠ [] →
      load_from_cache true (some records) t (t + 6 * 86400) = some records ∧
      cache_hit true (some records) t (t + 6 * 86400) = true) ∧
    (∀ (records : List ScrapedMatchRow) (t : Int), records ≠ [] →
      load_from_cache true (some records) t (t + 8 * 86400) = none ∧
      cache_hit true (some records) t (t + 8 * 86400) = false) := by
  have hload : ∀ (records : List ScrapedMatchRow) (t now : Int), records ≠ [] →
      now - t < 604800 → load_from_cache true (some records) t now = some records := by
    intro records t now hne hlt
    have hpos : 0 < records.length := List.length_pos.mpr hne
    simp only [load_from_cache, if_true, hpos, if_pos]
    rw [if_pos (by omega : now - t < 7 * 24 * 3600)]
  have hmiss : ∀ (records : List ScrapedMatchRow) (t now : Int), records ≠ [] →
      ¬ (now - t < 604800) → load_from_cache true (some records) t now = none := by
    intro records t now hne hge
    have hpos : 0 < records.length := List.length_pos.mpr hne
    simp only [load_from_cache, if_true, hpos, if_pos]
    rw [if_neg (by omega : ¬ (now - t < 7 * 24 * 3600))]
  have hhit : ∀ (p : Bool) (d : Option (List ScrapedMatchRow)) (t now : Int)
      (records : List ScrapedMatchRow),
      load_from_cache p d t now = some records → records ≠ [] →
      cache_hit p d t now = true := by
    intro p d t now records h hne
    unfold cache_hit
    rw [h]
    simp [List.isEmpty_iff, hne]
  have hnohit : ∀ (p : Bool) (d : Option (List ScrapedMatchRow)) (t now : Int),
      load_from_cache p d t now = none → cache_hit p d t now = false := by
    intro p d t now h
    unfold cache_hit
    rw [h]
  refine ⟨?_, ?_, ?_⟩
  · intro records t now hne hlt
    have h := hload records t now hne hlt
    exact ⟨h, hhit _ _ _ _ _ h hne⟩
  · intro records t hne
    have h := hload records t (t + 6 * 86400) hne (by omega)
    exact ⟨h, hhit _ _ _ _ _ h hne⟩
  · intro records t hne
    have h := hmiss records t (t + 8 * 86400) hne (by omega)
    exact ⟨h, hnohit _ _ _ _ h⟩

/-- Witness for C7 at a concrete cache entry written at time 0 and looked up
6 days and 8 days later. -/
theorem cache_freshness_window_witness :
    load_from_cache true (some [⟨"Arsenal"⟩]) 0 (0 + 6 * 86400) = some [⟨"Arsenal"⟩] ∧
    load_from_cache true (some [⟨"Arsenal"⟩]) 0 (0 + 8 * 86400) = none := by
  refine ⟨(cache_freshness_window.2.1 [⟨"Arsenal"⟩] 0 (by decide)).1,
    (cache_freshness_window.2.2 [⟨"Arsenal"⟩] 0 (by decide)).1⟩

/-! ## Claim C8 -/

/-- C8: (a) a fixtures table whose `match_id` column is missing but whose
rows carry parseable dates gets `match_id` regenerated — the processed frame
has the column, every processed row's id is the generated id of an input row,
and re-validating the processed frame reports `valid = true`; (b) of two rows
sharing a `match_id`, processing keeps exactly the first in input order. -/
theorem process_fixtures_recovery_and_dedup :
    (∀ (today : String) (rows : List RawFixtureRow),
      rows ≠ [] →
      (∀ r ∈ rows, (normalize_date r.date).isSome = true) →
      (process_fixtures today ⟨false, rows⟩).has_match_id = true ∧
      (validate_data (process_fixtures today ⟨false, rows⟩)).valid = true ∧
      (∀ r ∈ (process_fixtures today ⟨false, rows⟩).rows, ∃ o ∈ rows,
        r.match_id = generate_match_id o.date o.home_team o.away_team)) ∧
    (∀ (today : String) (r1 r2 : RawFixtureRow),
      r1.match_id = r2.match_id →
      normalize_date r1.date = some r1.date →
      normalize_date r2.date = some r2.date →
      strLe today r1.date = true →
      process_fixtures today ⟨true, [r1, r2]⟩ = ⟨true, [normalize_fixture_teams r1]⟩) := by
  constructor
  · intro today rows hne hdates
    have hpf : process_fixtures today ⟨false, rows⟩ =
        pf_finalize today
          (drop_duplicates (fun p => p.1.match_id)
            (((rows.map regen_match_id).map normalize_fixture_teams).map
              (fun r => (r, normalize_date r.date)))) := by
      unfold process_fixtures
      rw [if_neg (by simp [List.isEmpty_iff, hne])]
      rfl
    have hall : (drop_duplicates (fun p => p.1.match_id)
        (((rows.map regen_match_id).map normalize_fixture_teams).map
          (fun r => (r, normalize_date r.date)))).all (fun p => p.2.isSome) = true := by
      rw [List.all_eq_true]
      intro p hp
      have hp1 : p ∈ ((rows.map regen_match_id).map normalize_fixture_teams).map
          (fun r => (r, normalize_date r.date)) := dropDupAux_sub _ _ _ _ hp
      obtain ⟨r, hr, rfl⟩ := List.mem_map.mp hp1
      obtain ⟨r0, hr0, rfl⟩ := List.mem_map.mp hr
      obtain ⟨o, ho, rfl⟩ := List.mem_map.mp hr0
      simpa [normalize_fixture_teams, regen_match_id] using hdates o ho
    have hout : pf_finalize today
        (drop_duplicates (fun p => p.1.match_id)
          (((rows.map regen_match_id).map normalize_fixture_teams).map
            (fun r => (r, normalize_date r.date)))) =
        ⟨true, sortBy fixtureDateLe
          (((drop_duplicates (fun p => p.1.match_id)
            (((rows.map regen_match_id).map normalize_fixture_teams).map
              (fun r => (r, normalize_date r.date)))).filterMap
            (fun p => p.2.map (fun d => { p.1 with date := d }))).filter
            (fun r => strLe today r.date))⟩ := by
      unfold pf_finalize
      rw [if_pos hall]
    have hpreserve : ∀ (a : RawFixtureRow × Option String) (b : RawFixtureRow),
        (a.2.map (fun d => { a.1 with date := d })) = some b →
        b.match_id = a.1.match_id := by
      intro a b hab
      cases h2 : a.2 with
      | none => rw [h2] at hab; simp at hab
      | some d =>
        rw [h2] at hab
        simp only [Option.map_some] at hab
        rw [← Option.some_inj.mp hab]
    have hnd1 : ((drop_duplicates (fun p => p.1.match_id)
        (((rows.map regen_match_id).map normalize_fixture_teams).map
          (fun r => (r, normalize_date r.date)))).map (fun p => p.1.match_id)).Nodup :=
      (dropDupAux_key_nodup _ _ []).1
    have hnd2 := List.Nodup.sublist
      (filterMap_key_sublist _ _
        (fun p : RawFixtureRow × Option String => p.1.match_id)
        RawFixtureRow.match_id hpreserve)
      hnd1
    have hnd3 := List.Nodup.sublist
      ((List.filter_sublist (p := fun r => strLe today r.date) _).map RawFixtureRow.match_id)
      hnd2
    have hnd4 := (((sortBy_perm fixtureDateLe _).map RawFixtureRow.match_id).symm).nodup hnd3
    refine ⟨by rw [hpf, hout], ?_, ?_⟩
    · rw [hpf, hout]
      simp only [validate_data]
      rw [count_duplicate_ids_eq_zero hnd4]
      simp
    · intro r hr
      rw [hpf, hout] at hr
      have hr1 := (mem_sortBy fixtureDateLe _).mp hr
      have hr2 := List.mem_of_mem_filter hr1
      obtain ⟨p, hpL, hfp⟩ := List.mem_filterMap.mp hr2
      have hpL1 : p ∈ ((rows.map regen_match_id).map normalize_fixture_teams).map
          (fun r2 => (r2, normalize_date r2.date)) := dropDupAux_sub _ _ _ _ hpL
      obtain ⟨r2, hr2m, rfl⟩ := List.mem_map.mp hpL1
      obtain ⟨r0, hr0, rfl⟩ := List.mem_map.mp hr2m
      obtain ⟨o, ho, rfl⟩ := List.mem_map.mp hr0
      refine ⟨o, ho, ?_⟩
      have hmid := hpreserve _ _ hfp
      rw [hmid]
      simp [normalize_fixture_teams, regen_match_id]
  · intro today r1 r2 hid hd1 hd2 ht
    unfold process_fixtures
    rw [if_neg (by simp)]
    simp [pf_finalize, drop_duplicates, dropDupAux, ← hid, hd1, hd2, ht,
      sortBy, insertBy, normalize_fixture_teams]

/-- Witness for C8: the frame with a missing `match_id` column revalidates as
valid after processing, and a two-row frame with a duplicated `match_id` keeps
exactly its first row. -/
theorem process_fixtures_recovery_and_dedup_witness :
    (validate_data (process_fixtures "2025-06-15"
      ⟨false, [⟨"", "2025-06-20", "Arsenal", "Chelsea", "Premier League"⟩]⟩)).valid = true ∧
    process_fixtures "2025-06-15"
        ⟨true, [⟨"m1", "2025-06-20", "Arsenal", "Chelsea", "Premier League"⟩,
                ⟨"m1", "2025-06-21", "Fulham", "Brentford", "Premier League"⟩]⟩ =
      ⟨true, [⟨"m1", "2025-06-20", "Arsenal", "Chelsea", "Premier League"⟩]⟩ := by
  constructor
  · exact (process_fixtures_recovery_and_dedup.1 "2025-06-15"
      [⟨"", "2025-06-20", "Arsenal", "Chelsea", "Premier League"⟩]
      (by decide) (by decide)).2.1
  · have h := process_fixtures_recovery_and_dedup.2 "2025-06-15"
      ⟨"m1", "2025-06-20", "Arsenal", "Chelsea", "Premier League"⟩
      ⟨"m1", "2025-06-21", "Fulham", "Brentford", "Premier League"⟩
      rfl (by decide) (by decide) (by decide)
    exact h.trans (by decide)

/-! ## Claim C9 -/

/-- C9: `generate_match_id` is a pure function of its three string arguments
(two calls on identical inputs agree definitionally), and on
("2024-05-01", "Real Madrid", "FC Barcelona") it produces
"20240501_realmadrid_fcbarcelona". -/
theorem generate_match_id_deterministic_and_example :
    (∀ date home_team away_team : String,
      generate_match_id date home_team away_team =
        generate_match_id date home_team away_team) ∧
    generate_match_id "2024-05-01" "Real Madrid" "FC Barcelona" =
      "20240501_realmadrid_fcbarcelona" := by
  refine ⟨fun _ _ _ => rfl, ?_⟩
  decide

/-! ## Claim C10 -/

/-- C10: at the dynamically-typed surface `generate_match_id` is not total —
unlike `normalize_team_name`, which maps a missing name to `""`, it errors on a
missing team name or date — and it returns `Except.ok` exactly under the
precondition that all three arguments are strings. -/
theorem generate_match_id_requires_strings :
    normalize_team_name none = "" ∧
    generate_match_id_dyn (some "2024-05-01") none (some "Real Madrid") =
      Except.error "AttributeError: NoneType has no attribute lower" ∧
    generate_match_id_dyn none (some "Real Madrid") (some "FC Barcelona") =
      Except.error "AttributeError: NoneType has no attribute replace" ∧
    (∀ date home_team away_team : String,
      generate_match_id_dyn (some date) (some home_team) (some away_team) =
        Except.ok (generate_match_id date home_team away_team)) := by
  refine ⟨rfl, rfl, rfl, fun _ _ _ => rfl⟩

end FootballEtl
